import Mathlib

/-!
Shallow embedding of the `gosvm` circular frame buffer
(`circular_frame_buffer.go`) together with the constants of `main.go`,
and theorems about the behaviour of its operations.

Modelling conventions:
* A `gocv.Mat` is an abstract handle; we model it as a numeric identifier
  (`Mat := Nat`).  The empty placeholder Mats created by the constructor
  (and by `gocv.NewMat()`) are all represented by the identifier `0`
  (`placeholderMat`); frames handed to `Enqueue` in concrete scenarios use
  nonzero identifiers.  Nothing in the Go core mutates the pixel contents
  of a retained Mat in place, so the contents behind a handle are fixed;
  the only resource event is `Close`, which releases the backing storage
  behind a handle.
* Mutating methods return the updated state.  Methods that call
  `Close` on Mats additionally return the list of handles released during
  the call, so that resource-release behaviour is part of the model.
* The Go `%` on `int` is truncated division remainder; it is modelled by
  `Int.tmod`.  Go slice indexing `s[i]` aborts the program when
  `i < 0` or `i >= len(s)`; reads are therefore modelled with an
  `Option` result (`goIndex`), `none` standing for the abort.
* `Clone` produces a fresh Mat whose contents equal those of the source.
  Since contents are never mutated in place, the clone is modelled by
  copying the content identifier.
-/

namespace Gosvm

/-- A `gocv.Mat` handle, modelled as a numeric content identifier. -/
abbrev Mat := Nat

/-- The identifier used for the empty Mats created by `gocv.NewMat()`. -/
def placeholderMat : Mat := 0

/-- The `CircularFrameBuffer` struct (circular_frame_buffer.go, lines 7-16):
`frameBuffer` (frames slice), `frozenFrame` (last freeze frame),
`blendOffset` (number of frames to delay when blending), `size`
(capacity), `head` (first frame idx), `tail` (last frame idx), `full`,
`frozen`. -/
structure CircularFrameBuffer where
  frameBuffer : List Mat
  frozenFrame : Mat
  blendOffset : Int
  size : Nat
  head : Nat
  tail : Nat
  full : Bool
  frozen : Bool
deriving DecidableEq

/-- `NewCircularFrameBuffer(size, blendOffset)` (lines 18-33): fresh state
with the frame slice prepopulated with empty Mats, `frozenFrame` a fresh
empty Mat, and the remaining fields at their Go zero values. -/
def NewCircularFrameBuffer (size : Nat) (blendOffset : Int) : CircularFrameBuffer where
  frameBuffer := List.replicate size placeholderMat
  frozenFrame := placeholderMat
  blendOffset := blendOffset
  size := size
  head := 0
  tail := 0
  full := false
  frozen := false

/-- `IsEmpty()` (lines 35-37): `!cfb.full && cfb.head == cfb.tail`. -/
def IsEmpty (cfb : CircularFrameBuffer) : Bool :=
  !cfb.full && cfb.head == cfb.tail

/-- `IsFull()` (lines 39-41). -/
def IsFull (cfb : CircularFrameBuffer) : Bool :=
  cfb.full

/-- `IsFrozen()` (lines 43-45). -/
def IsFrozen (cfb : CircularFrameBuffer) : Bool :=
  cfb.frozen

/-- Go slice read `l[i]` with an `int` index: `none` models the runtime
abort on a negative or too-large index. -/
def goIndex (l : List Mat) (i : Int) : Option Mat :=
  if 0 ≤ i then l.get? i.toNat else none

/-- `BaseFrame()` (lines 49-53): the slot at `(tail - 1 + size) % size`,
with Go `%` (truncated remainder, `Int.tmod`). -/
def BaseFrame (cfb : CircularFrameBuffer) : Option Mat :=
  goIndex cfb.frameBuffer
    (Int.tmod ((cfb.tail : Int) - 1 + (cfb.size : Int)) (cfb.size : Int))

/-- The index `(cfb.tail - cfb.blendOffset + cfb.size) % cfb.size`
computed by `CalcBlendFrame` (line 62), with Go `%` (`Int.tmod`). -/
def blendFrameIdx (cfb : CircularFrameBuffer) : Int :=
  Int.tmod ((cfb.tail : Int) - cfb.blendOffset + (cfb.size : Int)) (cfb.size : Int)

/-- `CalcBlendFrame()` (lines 57-64): the frozen snapshot while frozen,
otherwise the slot at `blendFrameIdx`. -/
def CalcBlendFrame (cfb : CircularFrameBuffer) : Option Mat :=
  if cfb.frozen then some cfb.frozenFrame
  else goIndex cfb.frameBuffer (blendFrameIdx cfb)

/-- `ToggleFreezeFrame()` (lines 68-80).  When frozen: clears the flag and
closes `frozenFrame` (the field keeps the now-released handle).  When not
frozen: sets the flag and stores a clone of the Mat at slot `tail`.
Returns the new state, the returned boolean, and the handles closed. -/
def ToggleFreezeFrame (cfb : CircularFrameBuffer) :
    CircularFrameBuffer × Bool × List Mat :=
  if cfb.frozen then
    ({ cfb with frozen := false }, false, [cfb.frozenFrame])
  else
    ({ cfb with frozen := true,
                frozenFrame := cfb.frameBuffer.getD cfb.tail placeholderMat },
     true, [])

/-- `IncBlendOffset()` (lines 82-88): increments only while
`blendOffset < tail`; returns the resulting offset. -/
def IncBlendOffset (cfb : CircularFrameBuffer) : CircularFrameBuffer × Int :=
  if cfb.blendOffset < (cfb.tail : Int) then
    ({ cfb with blendOffset := cfb.blendOffset + 1 }, cfb.blendOffset + 1)
  else
    (cfb, cfb.blendOffset)

/-- `DecBlendOffset()` (lines 90-97): decrements only while
`blendOffset < head`; returns the resulting offset. -/
def DecBlendOffset (cfb : CircularFrameBuffer) : CircularFrameBuffer × Int :=
  if cfb.blendOffset < (cfb.head : Int) then
    ({ cfb with blendOffset := cfb.blendOffset - 1 }, cfb.blendOffset - 1)
  else
    (cfb, cfb.blendOffset)

/-- `Enqueue(frame)` (lines 99-109): rejected when `full`; otherwise the
frame is written at slot `tail`, `tail` advances by one modulo `size`, and
`full` becomes `tail == head` for the advanced `tail`.  No Mat is closed
in either branch (the overwritten slot occupant is not released).
Returns the new state, the returned boolean, and the handles closed. -/
def Enqueue (cfb : CircularFrameBuffer) (frame : Mat) :
    CircularFrameBuffer × Bool × List Mat :=
  if cfb.full then
    (cfb, false, [])
  else
    let t := (cfb.tail + 1) % cfb.size
    ({ cfb with frameBuffer := cfb.frameBuffer.set cfb.tail frame,
                tail := t,
                full := t == cfb.head },
     true, [])

/-- `Dequeue()` (lines 111-122): rejected when empty; otherwise closes the
Mat at slot `head` (the slot keeps the released handle), advances `head`
modulo `size`, and clears `full`. -/
def Dequeue (cfb : CircularFrameBuffer) : CircularFrameBuffer × Bool × List Mat :=
  if IsEmpty cfb then
    (cfb, false, [])
  else
    ({ cfb with head := (cfb.head + 1) % cfb.size, full := false },
     true, [cfb.frameBuffer.getD cfb.head placeholderMat])

/-- `frameBufferSize` (main.go, line 17). -/
def frameBufferSize : Nat := 110

/-- `defaultBlendOffset` (main.go, line 18). -/
def defaultBlendOffset : Int := 3

/-- `minBlendOffset` (main.go, line 20). -/
def minBlendOffset : Int := 1

/-- `maxBlendOffset` (main.go, line 21). -/
def maxBlendOffset : Int := 109

/-- Repeated `Enqueue` calls, keeping only the state (the main loop of
main.go enqueues one captured frame per cycle). -/
def enqueueAll : CircularFrameBuffer → List Mat → CircularFrameBuffer
  | cfb, [] => cfb
  | cfb, f :: fs => enqueueAll (Enqueue cfb f).1 fs

/-- The Mat handles closed during a sequence of `Enqueue` calls. -/
def enqueueAllReleased : CircularFrameBuffer → List Mat → List Mat
  | _, [] => []
  | cfb, f :: fs => (Enqueue cfb f).2.2 ++ enqueueAllReleased (Enqueue cfb f).1 fs

/-- The mutating operations the main loop can perform between captures,
plus a `query` operation standing for the pure observers (`IsEmpty`,
`IsFull`, `IsFrozen`, `BaseFrame`, `CalcBlendFrame`), which read the state
without changing it.  `Dequeue` is deliberately absent: the reference
pipeline never calls it. -/
inductive Op where
  | enqueue : Mat → Op
  | toggleFreeze : Op
  | incBlendOffset : Op
  | decBlendOffset : Op
  | query : Op
deriving DecidableEq

/-- Effect of one `Op` on the state. -/
def applyOp (cfb : CircularFrameBuffer) : Op → CircularFrameBuffer
  | Op.enqueue f => (Enqueue cfb f).1
  | Op.toggleFreeze => (ToggleFreezeFrame cfb).1
  | Op.incBlendOffset => (IncBlendOffset cfb).1
  | Op.decBlendOffset => (DecBlendOffset cfb).1
  | Op.query => cfb

/-- Effect of a sequence of `Op`s on the state. -/
def applyOps : CircularFrameBuffer → List Op → CircularFrameBuffer
  | cfb, [] => cfb
  | cfb, op :: ops => applyOps (applyOp cfb op) ops

/-- Offset-adjustment calls only (for sequences of `IncBlendOffset` and
`DecBlendOffset`). -/
inductive OffsetOp where
  | inc : OffsetOp
  | dec : OffsetOp
deriving DecidableEq

/-- Effect of one offset-adjustment call on the state. -/
def applyOffsetOp (cfb : CircularFrameBuffer) : OffsetOp → CircularFrameBuffer
  | OffsetOp.inc => (IncBlendOffset cfb).1
  | OffsetOp.dec => (DecBlendOffset cfb).1

/-- Effect of a sequence of offset-adjustment calls on the state. -/
def applyOffsetOps : CircularFrameBuffer → List OffsetOp → CircularFrameBuffer
  | cfb, [] => cfb
  | cfb, op :: ops => applyOffsetOps (applyOffsetOp cfb op) ops

/-- The C2 scenario state: capacity 5, offset 2, frames F0..F4 enqueued
(frame Fi is modelled by the Mat identifier 10 + i). -/
def scenarioC2 : CircularFrameBuffer :=
  enqueueAll (NewCircularFrameBuffer 5 2) [10, 11, 12, 13, 14]

/-- A non-full state whose slot `tail` (= 0) holds the live
non-placeholder frame 7: capacity 2, `head` = 1 (one frame dequeued
after the ring filled, so the write cursor sits on an occupied slot). -/
def cfbOccupied : CircularFrameBuffer :=
  ⟨[7, 0], 0, 1, 2, 1, 0, false, false⟩

/-- A state with the reference capacity 110 and `blendOffset` = 1 (the
configured minimum) in which two frames have been dequeued, so
`head` = 2 exceeds the offset. -/
def cfbC3 : CircularFrameBuffer :=
  ⟨List.replicate 110 placeholderMat, 0, 1, 110, 2, 0, false, false⟩

/-- A concrete full state with capacity 2. -/
def cfbFull : CircularFrameBuffer :=
  ⟨[5, 6], 0, 1, 2, 0, 0, true, false⟩

/-- A concrete frozen state with capacity 2 and frozen snapshot 9. -/
def cfbFrozen : CircularFrameBuffer :=
  ⟨[5, 6], 9, 1, 2, 0, 0, false, true⟩

/-! ## Helper lemmas -/

/-- A single `Enqueue` call never touches `frozen`, `frozenFrame`,
`head`, `blendOffset` or `size`, and closes no Mat. -/
lemma enqueue_preserves (cfb : CircularFrameBuffer) (f : Mat) :
    (Enqueue cfb f).1.frozen = cfb.frozen ∧
    (Enqueue cfb f).1.frozenFrame = cfb.frozenFrame ∧
    (Enqueue cfb f).1.head = cfb.head ∧
    (Enqueue cfb f).1.blendOffset = cfb.blendOffset ∧
    (Enqueue cfb f).1.size = cfb.size ∧
    (Enqueue cfb f).2.2 = ([] : List Mat) := by
  unfold Enqueue
  split <;> simp

/-- No single operation of the Dequeue-free repertoire clears `full`. -/
lemma applyOp_preserves_full (cfb : CircularFrameBuffer) (op : Op)
    (hf : cfb.full = true) : (applyOp cfb op).full = true := by
  cases op with
  | enqueue f => simp [applyOp, Enqueue, hf]
  | toggleFreeze =>
    simp only [applyOp]
    unfold ToggleFreezeFrame
    split <;> simp [hf]
  | incBlendOffset =>
    simp only [applyOp]
    unfold IncBlendOffset
    split <;> simp [hf]
  | decBlendOffset =>
    simp only [applyOp]
    unfold DecBlendOffset
    split <;> simp [hf]
  | query => exact hf

/-- No sequence of Dequeue-free operations clears `full`. -/
lemma applyOps_preserves_full (ops : List Op) :
    ∀ cfb : CircularFrameBuffer, cfb.full = true → (applyOps cfb ops).full = true := by
  induction ops with
  | nil => exact fun _ hf => hf
  | cons op ops ih => exact fun cfb hf => ih _ (applyOp_preserves_full cfb op hf)

/-- Dequeue-free operations keep `head` at 0 and keep a non-negative
`blendOffset` non-negative. -/
lemma applyOp_head_zero (cfb : CircularFrameBuffer) (op : Op)
    (h0 : cfb.head = 0) (hb : 0 ≤ cfb.blendOffset) :
    (applyOp cfb op).head = 0 ∧ 0 ≤ (applyOp cfb op).blendOffset := by
  cases op with
  | enqueue f =>
    simp only [applyOp]
    unfold Enqueue
    split
    · exact ⟨h0, hb⟩
    · exact ⟨h0, hb⟩
  | toggleFreeze =>
    simp only [applyOp]
    unfold ToggleFreezeFrame
    split
    · exact ⟨h0, hb⟩
    · exact ⟨h0, hb⟩
  | incBlendOffset =>
    simp only [applyOp]
    unfold IncBlendOffset
    split
    · exact ⟨h0, show (0 : Int) ≤ cfb.blendOffset + 1 by omega⟩
    · exact ⟨h0, hb⟩
  | decBlendOffset =>
    simp only [applyOp]
    unfold DecBlendOffset
    split
    · rename_i h
      exact ⟨h0, show (0 : Int) ≤ cfb.blendOffset - 1 by omega⟩
    · exact ⟨h0, hb⟩
  | query => exact ⟨h0, hb⟩

/-- Iterated form of `applyOp_head_zero`. -/
lemma applyOps_head_zero (ops : List Op) :
    ∀ cfb : CircularFrameBuffer, cfb.head = 0 → 0 ≤ cfb.blendOffset →
    (applyOps cfb ops).head = 0 ∧ 0 ≤ (applyOps cfb ops).blendOffset := by
  induction ops with
  | nil => exact fun _ h0 hb => ⟨h0, hb⟩
  | cons op ops ih =>
    intro cfb h0 hb
    obtain ⟨h0s, hbs⟩ := applyOp_head_zero cfb op h0 hb
    exact ih _ h0s hbs

/-! ## Claim theorems -/

/-- C9: whenever the ring is full, `Enqueue` returns `false`, closes
nothing, and leaves every field of the state unchanged. -/
theorem enqueue_on_full_is_atomic (cfb : CircularFrameBuffer) (f : Mat)
    (hf : cfb.full = true) : Enqueue cfb f = (cfb, false, []) := by
  unfold Enqueue
  simp [hf]

/-- Witness for `enqueue_on_full_is_atomic` at a concrete full state. -/
theorem enqueue_on_full_is_atomic_witness :
    Enqueue cfbFull 8 = (cfbFull, false, []) :=
  enqueue_on_full_is_atomic cfbFull 8 rfl

/-- C8: in a Dequeue-free execution, once `full` is set it stays set
under every later operation (enqueue, freeze toggle, offset changes,
queries), and every later `Enqueue` is rejected without changing the
state. -/
theorem full_is_permanent (cfb : CircularFrameBuffer) (ops : List Op) (f : Mat)
    (hf : cfb.full = true) :
    (applyOps cfb ops).full = true ∧
    Enqueue (applyOps cfb ops) f = (applyOps cfb ops, false, []) := by
  have h := applyOps_preserves_full ops cfb hf
  refine ⟨h, ?_⟩
  unfold Enqueue
  simp [h]

/-- Witness for `full_is_permanent`: a concrete full state followed by
one of each Dequeue-free operation. -/
theorem full_is_permanent_witness :
    (applyOps cfbFull [Op.enqueue 7, Op.toggleFreeze, Op.incBlendOffset,
      Op.decBlendOffset, Op.query]).full = true ∧
    Enqueue (applyOps cfbFull [Op.enqueue 7, Op.toggleFreeze, Op.incBlendOffset,
      Op.decBlendOffset, Op.query]) 8 =
      (applyOps cfbFull [Op.enqueue 7, Op.toggleFreeze, Op.incBlendOffset,
        Op.decBlendOffset, Op.query], false, []) :=
  full_is_permanent cfbFull
    [Op.enqueue 7, Op.toggleFreeze, Op.incBlendOffset, Op.decBlendOffset, Op.query] 8 rfl

/-- C10: whenever `head ≤ blendOffset`, `DecBlendOffset` leaves the state
unchanged and returns the current offset; moreover in every Dequeue-free
execution started with `head = 0` and a non-negative offset it is
permanently such a no-op. -/
theorem decBlendOffset_noop (cfb cfb0 : CircularFrameBuffer) (ops : List Op)
    (h : (cfb.head : Int) ≤ cfb.blendOffset)
    (h0 : cfb0.head = 0) (hb0 : 0 ≤ cfb0.blendOffset) :
    DecBlendOffset cfb = (cfb, cfb.blendOffset) ∧
    DecBlendOffset (applyOps cfb0 ops) =
      (applyOps cfb0 ops, (applyOps cfb0 ops).blendOffset) := by
  have noop : ∀ c : CircularFrameBuffer, (c.head : Int) ≤ c.blendOffset →
      DecBlendOffset c = (c, c.blendOffset) := by
    intro c hc
    unfold DecBlendOffset
    rw [if_neg (by omega)]
  obtain ⟨h0s, hbs⟩ := applyOps_head_zero ops cfb0 h0 hb0
  exact ⟨noop cfb h, noop _ (by omega)⟩

/-- Witness for `decBlendOffset_noop` at a fresh buffer and a short
Dequeue-free execution. -/
theorem decBlendOffset_noop_witness :
    DecBlendOffset (NewCircularFrameBuffer 2 3) = (NewCircularFrameBuffer 2 3, 3) ∧
    DecBlendOffset (applyOps (NewCircularFrameBuffer 2 3)
        [Op.enqueue 10, Op.decBlendOffset, Op.incBlendOffset]) =
      (applyOps (NewCircularFrameBuffer 2 3)
        [Op.enqueue 10, Op.decBlendOffset, Op.incBlendOffset],
       (applyOps (NewCircularFrameBuffer 2 3)
        [Op.enqueue 10, Op.decBlendOffset, Op.incBlendOffset]).blendOffset) :=
  decBlendOffset_noop _ _ _ (by decide) rfl (by decide)

/-- C6 (amended): with a positive capacity and
`blendOffset ≤ tail + size` (so the dividend of the Go remainder is
non-negative), the blend index is non-negative and below capacity. -/
theorem blendFrameIdx_in_range (cfb : CircularFrameBuffer) (hs : 0 < cfb.size)
    (hoff : 0 ≤ (cfb.tail : Int) - cfb.blendOffset + (cfb.size : Int)) :
    0 ≤ blendFrameIdx cfb ∧ blendFrameIdx cfb < (cfb.size : Int) := by
  unfold blendFrameIdx
  exact ⟨Int.tmod_nonneg _ hoff, Int.tmod_lt_of_pos _ (by exact_mod_cast hs)⟩

/-- Witness for `blendFrameIdx_in_range` at a fresh capacity-2 buffer. -/
theorem blendFrameIdx_in_range_witness :
    0 ≤ blendFrameIdx (NewCircularFrameBuffer 2 1) ∧
    blendFrameIdx (NewCircularFrameBuffer 2 1) < ((NewCircularFrameBuffer 2 1).size : Int) :=
  blendFrameIdx_in_range _ (by decide) (by decide)

/-- C6 counterexample: constructing with capacity 2 and initial offset 5
(a state reached directly from the constructor) makes the blend index
negative, so the slot read would abort the program. -/
theorem blendFrameIdx_negative_counterexample :
    ¬ 0 ≤ blendFrameIdx (NewCircularFrameBuffer 2 5) := by decide

/-- C4 (amended): with a positive capacity, a frame slice of matching
length, and `blendOffset ≤ tail + size`, `CalcBlendFrame` returns the
frozen snapshot when frozen and otherwise the slot at the mathematically
reduced index `(tail - blendOffset + size) mod size`, which is a valid
slot position. -/
theorem calcBlendFrame_eq_slot (cfb : CircularFrameBuffer) (hs : 0 < cfb.size)
    (hlen : cfb.frameBuffer.length = cfb.size)
    (hoff : 0 ≤ (cfb.tail : Int) - cfb.blendOffset + (cfb.size : Int)) :
    CalcBlendFrame cfb =
      (if cfb.frozen then some cfb.frozenFrame
       else cfb.frameBuffer.get?
         ((((cfb.tail : Int) - cfb.blendOffset + (cfb.size : Int)) %
             (cfb.size : Int)).toNat)) ∧
    (((cfb.tail : Int) - cfb.blendOffset + (cfb.size : Int)) %
        (cfb.size : Int)).toNat < cfb.frameBuffer.length := by
  have hbpos : (0 : Int) < (cfb.size : Int) := by exact_mod_cast hs
  have hmod : 0 ≤ ((cfb.tail : Int) - cfb.blendOffset + (cfb.size : Int)) % (cfb.size : Int) :=
    Int.emod_nonneg _ (by omega)
  have hlt : ((cfb.tail : Int) - cfb.blendOffset + (cfb.size : Int)) % (cfb.size : Int)
      < (cfb.size : Int) :=
    Int.emod_lt_of_pos _ hbpos
  constructor
  · unfold CalcBlendFrame goIndex blendFrameIdx
    rw [Int.tmod_eq_emod hoff (le_of_lt hbpos), if_pos hmod]
  · rw [hlen]
    exact (Int.toNat_lt hmod).mpr hlt

/-- Witness for `calcBlendFrame_eq_slot` at a fresh capacity-5 buffer
with offset 2. -/
theorem calcBlendFrame_eq_slot_witness :
    CalcBlendFrame (NewCircularFrameBuffer 5 2) =
      (if (NewCircularFrameBuffer 5 2).frozen then
        some (NewCircularFrameBuffer 5 2).frozenFrame
       else (NewCircularFrameBuffer 5 2).frameBuffer.get?
         (((((NewCircularFrameBuffer 5 2).tail : Int) -
             (NewCircularFrameBuffer 5 2).blendOffset +
             ((NewCircularFrameBuffer 5 2).size : Int)) %
             ((NewCircularFrameBuffer 5 2).size : Int)).toNat)) ∧
    ((((NewCircularFrameBuffer 5 2).tail : Int) -
        (NewCircularFrameBuffer 5 2).blendOffset +
        ((NewCircularFrameBuffer 5 2).size : Int)) %
        ((NewCircularFrameBuffer 5 2).size : Int)).toNat
      < (NewCircularFrameBuffer 5 2).frameBuffer.length :=
  calcBlendFrame_eq_slot _ (by decide) (by decide) (by decide)

/-- C4 counterexample: with capacity 2 and initial offset 5 the Go index
expression is negative, the slot read aborts, and `CalcBlendFrame` (in a
non-frozen state) does not return the slot at the mathematically reduced
index. -/
theorem calcBlendFrame_aborts_counterexample :
    (NewCircularFrameBuffer 2 5).frozen = false ∧
    CalcBlendFrame (NewCircularFrameBuffer 2 5) ≠
      (NewCircularFrameBuffer 2 5).frameBuffer.get?
        (((((NewCircularFrameBuffer 2 5).tail : Int) -
            (NewCircularFrameBuffer 2 5).blendOffset +
            ((NewCircularFrameBuffer 2 5).size : Int)) %
            ((NewCircularFrameBuffer 2 5).size : Int)).toNat) := by decide

/-- C1 (amended): `Enqueue` on a full ring returns `false`, closes
nothing, and leaves the state unchanged; on a non-full ring it installs
the frame at slot `tail` WITHOUT closing the previous occupant, advances
`tail` by one modulo capacity, leaves `head` alone, sets `full` exactly
when the advanced `tail` equals `head`, closes nothing, and returns
`true`. -/
theorem enqueue_behavior (cfb : CircularFrameBuffer) (f : Mat) :
    (cfb.full = true → Enqueue cfb f = (cfb, false, [])) ∧
    (cfb.full = false →
      (Enqueue cfb f).2.1 = true ∧
      (Enqueue cfb f).2.2 = [] ∧
      (Enqueue cfb f).1.frameBuffer = cfb.frameBuffer.set cfb.tail f ∧
      (Enqueue cfb f).1.tail = (cfb.tail + 1) % cfb.size ∧
      (Enqueue cfb f).1.head = cfb.head ∧
      ((Enqueue cfb f).1.full = true ↔
        (Enqueue cfb f).1.tail = (Enqueue cfb f).1.head)) := by
  constructor
  · intro h
    unfold Enqueue
    simp [h]
  · intro h
    unfold Enqueue
    simp [h]

/-- Witness for `enqueue_behavior` (non-full branch) at a fresh
capacity-2 buffer. -/
theorem enqueue_behavior_witness :
    (Enqueue (NewCircularFrameBuffer 2 3) 10).2.1 = true ∧
    (Enqueue (NewCircularFrameBuffer 2 3) 10).2.2 = [] ∧
    (Enqueue (NewCircularFrameBuffer 2 3) 10).1.frameBuffer =
      (NewCircularFrameBuffer 2 3).frameBuffer.set (NewCircularFrameBuffer 2 3).tail 10 ∧
    (Enqueue (NewCircularFrameBuffer 2 3) 10).1.tail =
      ((NewCircularFrameBuffer 2 3).tail + 1) % (NewCircularFrameBuffer 2 3).size ∧
    (Enqueue (NewCircularFrameBuffer 2 3) 10).1.head = (NewCircularFrameBuffer 2 3).head ∧
    ((Enqueue (NewCircularFrameBuffer 2 3) 10).1.full = true ↔
      (Enqueue (NewCircularFrameBuffer 2 3) 10).1.tail =
        (Enqueue (NewCircularFrameBuffer 2 3) 10).1.head) :=
  (enqueue_behavior (NewCircularFrameBuffer 2 3) 10).2 rfl

/-- C1 counterexample: in a non-full state whose slot `tail` holds the
live non-placeholder frame 7, `Enqueue` succeeds yet closes nothing; the
occupant is not released, contrary to the claim. -/
theorem enqueue_no_release_counterexample :
    (Enqueue cfbOccupied 9).2.1 = true ∧
    cfbOccupied.frameBuffer.getD cfbOccupied.tail placeholderMat = 7 ∧
    (7 : Mat) ≠ placeholderMat ∧
    7 ∉ (Enqueue cfbOccupied 9).2.2 := by decide

/-- C2 counterexample: after enqueueing F0..F4 (identifiers 10..14) into
a capacity-5 buffer with offset 2, `CalcBlendFrame` does not return F2
(identifier 12), and the further `Enqueue` of F5 (identifier 15) does not
succeed. -/
theorem scenario_counterexample :
    ¬ (CalcBlendFrame scenarioC2 = some 12 ∧
       (Enqueue scenarioC2 15).2.1 = true) := by decide

/-- C2 (amended): after enqueueing F0..F4 the blend frame with offset 2
is F3 (identifier 13, two slots before the write position `tail` = 0);
the ring is full, so the further `Enqueue` of F5 is rejected with the
state unchanged, and the blend frame is still F3. -/
theorem scenario_behavior :
    CalcBlendFrame scenarioC2 = some 13 ∧
    IsFull scenarioC2 = true ∧
    scenarioC2.tail = 0 ∧
    Enqueue scenarioC2 15 = (scenarioC2, false, []) ∧
    CalcBlendFrame (Enqueue scenarioC2 15).1 = some 13 := by decide

/-- C3 counterexample: from a state with `head` = 2 and
`blendOffset` = `minBlendOffset` = 1 (inside the configured range), a
single `DecBlendOffset` call pushes the offset below the minimum. -/
theorem dec_below_min_counterexample :
    minBlendOffset ≤ cfbC3.blendOffset ∧ cfbC3.blendOffset ≤ maxBlendOffset ∧
    ¬ minBlendOffset ≤ (applyOffsetOps cfbC3 [OffsetOp.dec]).blendOffset := by decide

/-- C3 (amended): provided `head ≤ minBlendOffset` and
`tail ≤ maxBlendOffset` — as in the reference pipeline, where `head`
stays 0 and `tail` stays below the capacity 110 — every sequence of
`IncBlendOffset` and `DecBlendOffset` calls keeps `blendOffset` inside
`[minBlendOffset, maxBlendOffset]`.  Without the `head` bound,
`DecBlendOffset` can push the offset below the minimum. -/
theorem blendOffset_stays_in_range (ops : List OffsetOp) :
    ∀ cfb : CircularFrameBuffer,
    (cfb.head : Int) ≤ minBlendOffset → (cfb.tail : Int) ≤ maxBlendOffset →
    minBlendOffset ≤ cfb.blendOffset → cfb.blendOffset ≤ maxBlendOffset →
    minBlendOffset ≤ (applyOffsetOps cfb ops).blendOffset ∧
    (applyOffsetOps cfb ops).blendOffset ≤ maxBlendOffset := by
  induction ops with
  | nil => exact fun _ _ _ h1 h2 => ⟨h1, h2⟩
  | cons op ops ih =>
    intro cfb hh ht h1 h2
    have hstep :
        (applyOffsetOp cfb op).head = cfb.head ∧
        (applyOffsetOp cfb op).tail = cfb.tail ∧
        minBlendOffset ≤ (applyOffsetOp cfb op).blendOffset ∧
        (applyOffsetOp cfb op).blendOffset ≤ maxBlendOffset := by
      cases op with
      | inc =>
        simp only [applyOffsetOp]
        unfold IncBlendOffset
        split
        · rename_i h
          refine ⟨rfl, rfl, show minBlendOffset ≤ cfb.blendOffset + 1 by omega,
            show cfb.blendOffset + 1 ≤ maxBlendOffset by omega⟩
        · exact ⟨rfl, rfl, h1, h2⟩
      | dec =>
        simp only [applyOffsetOp]
        unfold DecBlendOffset
        split
        · rename_i h
          refine ⟨rfl, rfl, show minBlendOffset ≤ cfb.blendOffset - 1 by omega,
            show cfb.blendOffset - 1 ≤ maxBlendOffset by omega⟩
        · exact ⟨rfl, rfl, h1, h2⟩
    obtain ⟨e1, e2, b1, b2⟩ := hstep
    exact ih _ (by rw [e1]; exact hh) (by rw [e2]; exact ht) b1 b2

/-- Witness for `blendOffset_stays_in_range` with the reference capacity
and default offset. -/
theorem blendOffset_stays_in_range_witness :
    minBlendOffset ≤ (applyOffsetOps (NewCircularFrameBuffer 110 3)
      [OffsetOp.inc, OffsetOp.dec]).blendOffset ∧
    (applyOffsetOps (NewCircularFrameBuffer 110 3)
      [OffsetOp.inc, OffsetOp.dec]).blendOffset ≤ maxBlendOffset :=
  blendOffset_stays_in_range [OffsetOp.inc, OffsetOp.dec] _
    (by decide) (by decide) (by decide) (by decide)

/-- Iterated `Enqueue` never touches `frozen`, `frozenFrame`, `head`,
`blendOffset` or `size`, and closes no Mat. -/
lemma enqueueAll_preserves (fs : List Mat) :
    ∀ cfb : CircularFrameBuffer,
    (enqueueAll cfb fs).frozen = cfb.frozen ∧
    (enqueueAll cfb fs).frozenFrame = cfb.frozenFrame ∧
    (enqueueAll cfb fs).head = cfb.head ∧
    (enqueueAll cfb fs).blendOffset = cfb.blendOffset ∧
    (enqueueAll cfb fs).size = cfb.size ∧
    enqueueAllReleased cfb fs = [] := by
  induction fs with
  | nil => exact fun _ => ⟨rfl, rfl, rfl, rfl, rfl, rfl⟩
  | cons f fs ih =>
    intro cfb
    obtain ⟨p1, p2, p3, p4, p5, p6⟩ := enqueue_preserves cfb f
    obtain ⟨q1, q2, q3, q4, q5, q6⟩ := ih (Enqueue cfb f).1
    refine ⟨q1.trans p1, q2.trans p2, q3.trans p3, q4.trans p4, q5.trans p5, ?_⟩
    show (Enqueue cfb f).2.2 ++ enqueueAllReleased (Enqueue cfb f).1 fs = []
    rw [p6, q6]
    rfl

/-- State reached by successive enqueues: starting from a not-full state
with `head` = 0 and `tail` below capacity, as long as the total number
of writes never exceeds capacity the write cursor advances linearly and
`full` is set exactly when the cursor wraps onto `head`. -/
lemma enqueueAll_state (fs : List Mat) :
    ∀ cfb : CircularFrameBuffer, 0 < cfb.size → cfb.head = 0 → cfb.full = false →
    cfb.tail < cfb.size → cfb.tail + fs.length ≤ cfb.size →
    (enqueueAll cfb fs).head = 0 ∧
    (enqueueAll cfb fs).size = cfb.size ∧
    (enqueueAll cfb fs).tail = (cfb.tail + fs.length) % cfb.size ∧
    ((enqueueAll cfb fs).full = true ↔ cfb.tail + fs.length = cfb.size) := by
  induction fs with
  | nil =>
    intro cfb hs hh hf ht hlen
    refine ⟨hh, rfl, ?_, ?_⟩
    · show cfb.tail = (cfb.tail + 0) % cfb.size
      rw [Nat.add_zero, Nat.mod_eq_of_lt ht]
    · show cfb.full = true ↔ cfb.tail + 0 = cfb.size
      rw [hf]
      simp
      omega
  | cons f fs ih =>
    intro cfb hs hh hf ht hlen
    have hlc : (f :: fs).length = fs.length + 1 := rfl
    rw [hlc] at hlen
    have hfneg : ¬ (cfb.full = true) := by simp [hf]
    have hc1size : (Enqueue cfb f).1.size = cfb.size :=
      (enqueue_preserves cfb f).2.2.2.2.1
    have hc1head : (Enqueue cfb f).1.head = 0 :=
      ((enqueue_preserves cfb f).2.2.1).trans hh
    have hc1tail : (Enqueue cfb f).1.tail = (cfb.tail + 1) % cfb.size := by
      unfold Enqueue
      rw [if_neg hfneg]
    have hc1full : (Enqueue cfb f).1.full = ((cfb.tail + 1) % cfb.size == 0) := by
      unfold Enqueue
      rw [if_neg hfneg]
      show ((cfb.tail + 1) % cfb.size == cfb.head) = _
      rw [hh]
    rcases Nat.lt_or_ge (cfb.tail + 1) cfb.size with hwrap | hwrap
    · have hmod : (cfb.tail + 1) % cfb.size = cfb.tail + 1 := Nat.mod_eq_of_lt hwrap
      have hc1fullf : (Enqueue cfb f).1.full = false := by
        rw [hc1full, hmod]
        simp
      obtain ⟨r1, r2, r3, r4⟩ := ih (Enqueue cfb f).1
        (by rw [hc1size]; exact hs) hc1head hc1fullf
        (by rw [hc1tail, hc1size, hmod]; exact hwrap)
        (by rw [hc1tail, hc1size, hmod]; omega)
      refine ⟨r1, r2.trans hc1size, ?_, ?_⟩
      · show (enqueueAll (Enqueue cfb f).1 fs).tail =
          (cfb.tail + (f :: fs).length) % cfb.size
        rw [r3, hc1tail, hc1size, hmod, hlc]
        congr 1
        omega
      · show (enqueueAll (Enqueue cfb f).1 fs).full = true ↔
          cfb.tail + (f :: fs).length = cfb.size
        rw [r4, hc1tail, hc1size, hmod, hlc]
        omega
    · have heq : cfb.tail + 1 = cfb.size := by omega
      have hfs0 : fs.length = 0 := by omega
      have hfs : fs = [] := List.length_eq_zero.mp hfs0
      subst hfs
      refine ⟨hc1head, hc1size, ?_, ?_⟩
      · show (Enqueue cfb f).1.tail = (cfb.tail + 1) % cfb.size
        exact hc1tail
      · show (Enqueue cfb f).1.full = true ↔ cfb.tail + 1 = cfb.size
        rw [hc1full, heq, Nat.mod_self]
        simp

/-- C7: once frozen, any sequence of `Enqueue` calls leaves the frozen
snapshot (and `frozen`, `head`, `blendOffset`) unchanged and closes no
Mat — so the snapshot contents are untouched — and `CalcBlendFrame`
keeps returning the same snapshot. -/
theorem frozen_snapshot_independent (cfb : CircularFrameBuffer) (fs : List Mat)
    (hf : cfb.frozen = true) :
    (enqueueAll cfb fs).frozen = true ∧
    (enqueueAll cfb fs).frozenFrame = cfb.frozenFrame ∧
    CalcBlendFrame (enqueueAll cfb fs) = some cfb.frozenFrame ∧
    (enqueueAll cfb fs).head = cfb.head ∧
    (enqueueAll cfb fs).blendOffset = cfb.blendOffset ∧
    enqueueAllReleased cfb fs = [] := by
  obtain ⟨p1, p2, p3, p4, p5, p6⟩ := enqueueAll_preserves fs cfb
  have hfz : (enqueueAll cfb fs).frozen = true := p1.trans hf
  refine ⟨hfz, p2, ?_, p3, p4, p6⟩
  unfold CalcBlendFrame
  rw [if_pos hfz, p2]

/-- Witness for `frozen_snapshot_independent` at a concrete frozen state
followed by three enqueues. -/
theorem frozen_snapshot_independent_witness :
    (enqueueAll cfbFrozen [20, 21, 22]).frozen = true ∧
    (enqueueAll cfbFrozen [20, 21, 22]).frozenFrame = cfbFrozen.frozenFrame ∧
    CalcBlendFrame (enqueueAll cfbFrozen [20, 21, 22]) = some cfbFrozen.frozenFrame ∧
    (enqueueAll cfbFrozen [20, 21, 22]).head = cfbFrozen.head ∧
    (enqueueAll cfbFrozen [20, 21, 22]).blendOffset = cfbFrozen.blendOffset ∧
    enqueueAllReleased cfbFrozen [20, 21, 22] = [] :=
  frozen_snapshot_independent cfbFrozen [20, 21, 22] rfl

/-- C5 (amended): after `N ≤ capacity` enqueues into a freshly
constructed buffer, `IsFull` is true exactly when `N` equals the
capacity (the claim asserts it is false for every `N ≤ capacity`, which
fails at `N` = capacity), and `IsEmpty` is true exactly when `N` = 0. -/
theorem isFull_isEmpty_after_enqueues (size : Nat) (off : Int) (fs : List Mat)
    (hs : 0 < size) (hlen : fs.length ≤ size) :
    (IsFull (enqueueAll (NewCircularFrameBuffer size off) fs) = true ↔
      fs.length = size) ∧
    (IsEmpty (enqueueAll (NewCircularFrameBuffer size off) fs) = true ↔
      fs.length = 0) := by
  obtain ⟨hh, hsz, htl, hfl⟩ := enqueueAll_state fs (NewCircularFrameBuffer size off)
    hs rfl rfl hs (by show 0 + fs.length ≤ size; omega)
  have hfl2 : (enqueueAll (NewCircularFrameBuffer size off) fs).full = true ↔
      fs.length = size :=
    hfl.trans (by show 0 + fs.length = size ↔ fs.length = size; omega)
  have htl2 : (enqueueAll (NewCircularFrameBuffer size off) fs).tail =
      fs.length % size := by
    rw [htl]
    show (0 + fs.length) % size = fs.length % size
    rw [Nat.zero_add]
  refine ⟨hfl2, ?_⟩
  unfold IsEmpty
  rw [hh, htl2]
  rcases Nat.lt_or_ge fs.length size with hlt | hge
  · have hm : fs.length % size = fs.length := Nat.mod_eq_of_lt hlt
    have hfull : (enqueueAll (NewCircularFrameBuffer size off) fs).full = false := by
      cases hb : (enqueueAll (NewCircularFrameBuffer size off) fs).full with
      | false => rfl
      | true => exact absurd (hfl2.mp hb) (Nat.ne_of_lt hlt)
    rw [hfull, hm]
    simp only [Bool.not_false, Bool.true_and, beq_iff_eq]
    omega
  · have heq : fs.length = size := by omega
    have hfull : (enqueueAll (NewCircularFrameBuffer size off) fs).full = true :=
      hfl2.mpr heq
    rw [hfull]
    simp only [Bool.not_true, Bool.false_and, Bool.false_eq_true, false_iff]
    omega

/-- Witness for `isFull_isEmpty_after_enqueues`: one enqueue into a
fresh capacity-2 buffer. -/
theorem isFull_isEmpty_after_enqueues_witness :
    (IsFull (enqueueAll (NewCircularFrameBuffer 2 3) [10]) = true ↔
      ([10] : List Mat).length = 2) ∧
    (IsEmpty (enqueueAll (NewCircularFrameBuffer 2 3) [10]) = true ↔
      ([10] : List Mat).length = 0) :=
  isFull_isEmpty_after_enqueues 2 3 [10] (by decide) (by decide)

/-- C5 counterexample: N = capacity = 2 enqueues into a fresh buffer
make `IsFull` true, contradicting the claim that `IsFull` is false for
every `N ≤ capacity`. -/
theorem isFull_at_capacity_counterexample :
    ([10, 11] : List Mat).length ≤ (NewCircularFrameBuffer 2 3).size ∧
    IsFull (enqueueAll (NewCircularFrameBuffer 2 3) [10, 11]) = true := by decide

end Gosvm
